/-
Verification of the staging-table creator (create_staging_tables_fixed.py).

The development shallowly embeds the SQLite-backed ETL script: a database is
an association list from table names to tables, a table is a column list
(name, declared type) together with a list of rows, and a row is a list of
SQL values. Each Python function of the script is translated to a Lean
function of the same name; stateful SQL statements become explicit
state-passing on the database value, and the fallible insert statement
returns Except. Theorems about these definitions settle the specified
properties of the script.
-/
import Mathlib


/-- An SQL storage value: NULL, an integer, or a text value. -/
inductive Val where
  | null : Val
  | intV : Int → Val
  | strV : String → Val
deriving Repr, DecidableEq

/-- A table: ordered column definitions (name, declared type) and rows.
Each row is a list of values, positionally aligned with the columns. -/
structure Table where
  cols : List (String × String)
  rows : List (List Val)
deriving Repr, DecidableEq

/-- A database: an association list from table names to tables. -/
def Database := List (String × Table)
deriving instance Repr for Database
deriving instance DecidableEq for Database

/-- Character-level model of the Python str.startswith test used by the
script (also by the SQL column filter on names beginning with "_"). -/
def pyStartsWith (s pre : String) : Bool :=
  pre.data.isPrefixOf s.data

/-- Character-level model of the Python slice s[n:]. -/
def pyDrop (s : String) (n : Nat) : String :=
  String.mk (s.data.drop n)

/-- Look a table up by name, as an SQL statement addresses a table. -/
def getTable (db : Database) (name : String) : Option Table :=
  (db.find? (fun p => p.1 == name)).map Prod.snd

/-- Store a table under a name, replacing any previous table of that name.
Models the effect of CREATE TABLE and of committed INSERT statements. -/
def setTable (db : Database) (name : String) (t : Table) : Database :=
  (name, t) :: db.filter (fun p => !(p.1 == name))

/-- Translation of create_stg_table_name: maps a raw table name to the
staging table name by replacing a literal prefix Raw, raw or RAW by stg,
and otherwise prepending stg and an underscore. -/
def create_stg_table_name (raw_table_name : String) : String :=
  if pyStartsWith raw_table_name "Raw" then
    "stg" ++ pyDrop raw_table_name 3
  else if pyStartsWith raw_table_name "raw" then
    "stg" ++ pyDrop raw_table_name 3
  else if pyStartsWith raw_table_name "RAW" then
    "stg" ++ pyDrop raw_table_name 3
  else
    "stg_" ++ raw_table_name

/-- The two metadata columns the script appends to every staging table. -/
def metaCols : List (String × String) :=
  [("_loaded_at", "TEXT"), ("_source_table", "TEXT")]

/-- The names of the metadata columns, as listed in the insert statement. -/
def metaColNames : List String :=
  ["_loaded_at", "_source_table"]

/-- Translation of create_stg_table: CREATE TABLE IF NOT EXISTS with the
source table structure plus the two metadata columns. A missing source
table introspects to an empty column list (PRAGMA table_info on a missing
table returns no rows). -/
def create_stg_table (db : Database) (raw_table_name stg_table_name : String) :
    Database :=
  match getTable db stg_table_name with
  | some _ => db
  | none =>
      let rawCols := ((getTable db raw_table_name).map Table.cols).getD []
      setTable db stg_table_name { cols := rawCols ++ metaCols, rows := [] }

/-- Translation of get_column_names: the column names of a table, excluding
every column whose name starts with an underscore. -/
def get_column_names (t : Table) : List String :=
  (t.cols.filter (fun c => !(pyStartsWith c.1 "_"))).map Prod.fst

/-- Translation of count_duplicates_in_raw: total row count minus distinct
row count, distinctness taken over all columns (SELECT DISTINCT star). The
Python except branch returning 0 is unreachable in the embedding because
both counting queries are total here. -/
def count_duplicates_in_raw (t : Table) : Int :=
  (t.rows.length : Int) - (t.rows.dedup.length : Int)

/-- The row a SELECT of the non-underscore columns returns for a stored row:
values of columns whose name starts with an underscore are omitted, the
others are kept in column order. -/
def projectRow : List (String × String) → List Val → List Val
  | [], _ => []
  | _ :: _, [] => []
  | c :: cs, v :: vs =>
      if pyStartsWith c.1 "_" then projectRow cs vs
      else v :: projectRow cs vs

/-- The stored row an INSERT naming particular columns produces: each
destination column receives the value supplied under its name, and every
column the statement does not name receives NULL (the SQLite default). -/
def mkInsertedRow (destCols : List (String × String))
    (assocs : List (String × Val)) : List Val :=
  destCols.map (fun c =>
    (((assocs.find? (fun p => p.1 == c.1)).map Prod.snd).getD Val.null))

/-- The statistics dictionary move_data_deduplicated returns. -/
structure MergeStats where
  raw_count : Int
  stg_before : Int
  stg_after : Int
  rows_inserted : Int
  duplicates_removed : Int
  already_existed : Int
deriving Repr, DecidableEq

/-- Translation of move_data_deduplicated. The generated statement is
INSERT INTO stg (c1, ..., ck, _loaded_at, _source_table)
SELECT DISTINCT c1, ..., ck, now, raw_table_name FROM raw, where c1..ck are
the non-underscore columns of the raw table. An empty column list is an
SQL syntax error; a named column absent from the destination is an SQL
error; either aborts the statement with nothing inserted. The timestamp
produced by datetime(now) enters as the parameter now. -/
def move_data_deduplicated (db : Database) (raw_table_name stg_table_name : String)
    (now : String) : Except String (Database × MergeStats) :=
  match getTable db raw_table_name, getTable db stg_table_name with
  | some rawT, some stgT =>
      let raw_columns := get_column_names rawT
      if raw_columns.isEmpty then
        Except.error "SQL syntax error: empty column list"
      else
        let raw_count : Int := rawT.rows.length
        let stg_count_before : Int := stgT.rows.length
        let dup_in_raw : Int := count_duplicates_in_raw rawT
        let insertNames := raw_columns ++ metaColNames
        if insertNames.all (fun n => (stgT.cols.map Prod.fst).contains n) then
          let distinctRows := (rawT.rows.map (projectRow rawT.cols)).dedup
          let newRows := distinctRows.map (fun r =>
            mkInsertedRow stgT.cols
              (insertNames.zip (r ++ [Val.strV now, Val.strV raw_table_name])))
          let stgT2 : Table := { stgT with rows := stgT.rows ++ newRows }
          let stg_count_after : Int := stgT2.rows.length
          let actual_new := stg_count_after - stg_count_before
          Except.ok (setTable db stg_table_name stgT2,
            { raw_count := raw_count
              stg_before := stg_count_before
              stg_after := stg_count_after
              rows_inserted := actual_new
              duplicates_removed := dup_in_raw
              already_existed := max 0 (raw_count - dup_in_raw - actual_new) })
        else
          Except.error "SQL error: named column missing from destination"
  | _, _ => Except.error "SQL error: no such table"

/-- The per-table record the batch driver appends to its results list. -/
structure TableResult where
  raw_table : String
  stg_table : String
  success : Bool
  error : Option String
  stats : Option MergeStats
deriving Repr, DecidableEq

/-- The per-table loop of process_raw_to_stg: for each raw table derive the
staging name, ensure the staging table, merge, and record success with the
statistics or failure with the error message; an error never stops the
remaining tables. -/
def processTables (db : Database) (now : String) :
    List String → Database × List TableResult
  | [] => (db, [])
  | raw_table :: rest =>
      let stg_table := create_stg_table_name raw_table
      let db1 := create_stg_table db raw_table stg_table
      match move_data_deduplicated db1 raw_table stg_table now with
      | Except.ok (db2, stats) =>
          let res := processTables db2 now rest
          (res.1, { raw_table := raw_table, stg_table := stg_table,
                    success := true, error := none, stats := some stats } :: res.2)
      | Except.error e =>
          let res := processTables db1 now rest
          (res.1, { raw_table := raw_table, stg_table := stg_table,
                    success := false, error := some e, stats := none } :: res.2)

/-- Translation of the reporting core of process_raw_to_stg: run the loop
over the discovered raw tables and return the final database, the results
list, and the aggregate flag, which the script computes as the emptiness of
the failed sublist. Configuration reading, console printing and the
metadata bookkeeping are plumbing outside the embedding. -/
def process_raw_to_stg (db : Database) (now : String) (tables : List String) :
    Database × List TableResult × Bool :=
  let res := processTables db now tables
  (res.1, res.2, (res.2.filter (fun r => !r.success)).isEmpty)

/-- A one-row source table holding the business row (1, A). -/
def C1raw : Table :=
  { cols := [("id", "INTEGER"), ("name", "TEXT")],
    rows := [[Val.intV 1, Val.strV "A"]] }

/-- A destination table that already holds the business row (1, A),
loaded at time t0 from rawT. -/
def C1stg : Table :=
  { cols := [("id", "INTEGER"), ("name", "TEXT")] ++ metaCols,
    rows := [[Val.intV 1, Val.strV "A", Val.strV "t0", Val.strV "rawT"]] }

/-- Database in which the destination already contains the only source row. -/
def C1db : Database := [("rawT", C1raw), ("stgT", C1stg)]

/-- The destination table after the merge on C1db: the pre-existing row and
a second copy of the same business row, freshly tagged. -/
def C1stgAfter : Table :=
  { cols := [("id", "INTEGER"), ("name", "TEXT")] ++ metaCols,
    rows := [[Val.intV 1, Val.strV "A", Val.strV "t0", Val.strV "rawT"],
             [Val.intV 1, Val.strV "A", Val.strV "t1", Val.strV "rawT"]] }

/-- The database after the merge on C1db. -/
def C1dbAfter : Database := [("stgT", C1stgAfter), ("rawT", C1raw)]

/-- The statistics the merge on C1db returns. -/
def C1stats : MergeStats :=
  { raw_count := 1, stg_before := 1, stg_after := 2, rows_inserted := 1,
    duplicates_removed := 0, already_existed := 0 }

/-- The source table of the specification scenario: rows (1, A), (1, A),
(2, B) with columns id and name. -/
def C2raw : Table :=
  { cols := [("id", "INTEGER"), ("name", "TEXT")],
    rows := [[Val.intV 1, Val.strV "A"], [Val.intV 1, Val.strV "A"],
             [Val.intV 2, Val.strV "B"]] }

/-- Database holding only the scenario source table. -/
def C2db : Database := [("RawAccount", C2raw)]

/-- The staging table after the first merge of the scenario. -/
def C2stg1 : Table :=
  { cols := [("id", "INTEGER"), ("name", "TEXT")] ++ metaCols,
    rows := [[Val.intV 1, Val.strV "A", Val.strV "t1", Val.strV "RawAccount"],
             [Val.intV 2, Val.strV "B", Val.strV "t1", Val.strV "RawAccount"]] }

/-- The database after the first merge of the scenario. -/
def C2db1 : Database := [("stgAccount", C2stg1), ("RawAccount", C2raw)]

/-- The statistics of the first merge of the scenario. -/
def C2stats1 : MergeStats :=
  { raw_count := 3, stg_before := 0, stg_after := 2, rows_inserted := 2,
    duplicates_removed := 1, already_existed := 0 }

/-- The staging table after the second merge of the scenario: the two
distinct source rows have been inserted again. -/
def C2stg2 : Table :=
  { cols := [("id", "INTEGER"), ("name", "TEXT")] ++ metaCols,
    rows := [[Val.intV 1, Val.strV "A", Val.strV "t1", Val.strV "RawAccount"],
             [Val.intV 2, Val.strV "B", Val.strV "t1", Val.strV "RawAccount"],
             [Val.intV 1, Val.strV "A", Val.strV "t2", Val.strV "RawAccount"],
             [Val.intV 2, Val.strV "B", Val.strV "t2", Val.strV "RawAccount"]] }

/-- The database after the second merge of the scenario. -/
def C2db2 : Database := [("stgAccount", C2stg2), ("RawAccount", C2raw)]

/-- The statistics of the second merge of the scenario. -/
def C2stats2 : MergeStats :=
  { raw_count := 3, stg_before := 2, stg_after := 4, rows_inserted := 2,
    duplicates_removed := 1, already_existed := 0 }

/-- A one-column source table for the schema-mismatch scenario. -/
def C5raw : Table := { cols := [("id", "INTEGER")], rows := [[Val.intV 1]] }

/-- A destination that already has an extra column the source lacks,
besides the mirrored source column and the metadata columns. -/
def C5stg : Table :=
  { cols := [("id", "INTEGER"), ("extra", "TEXT")] ++ metaCols, rows := [] }

/-- Database of the schema-mismatch scenario. -/
def C5db : Database := [("rawS", C5raw), ("stgS", C5stg)]

/-- The destination after the merge of the schema-mismatch scenario: one
row was inserted, with NULL in the extra column. -/
def C5stgAfter : Table :=
  { cols := [("id", "INTEGER"), ("extra", "TEXT")] ++ metaCols,
    rows := [[Val.intV 1, Val.null, Val.strV "t1", Val.strV "rawS"]] }

/-- The database after the merge of the schema-mismatch scenario. -/
def C5dbAfter : Database := [("stgS", C5stgAfter), ("rawS", C5raw)]

/-- The statistics of the merge of the schema-mismatch scenario. -/
def C5stats : MergeStats :=
  { raw_count := 1, stg_before := 0, stg_after := 1, rows_inserted := 1,
    duplicates_removed := 0, already_existed := 0 }

/-- A source table with an underscore-prefixed column next to an ordinary
one; its two rows agree on the ordinary column and differ on the
underscore one. -/
def C7raw : Table :=
  { cols := [("_x", "TEXT"), ("y", "TEXT")],
    rows := [[Val.strV "a", Val.strV "b"], [Val.strV "c", Val.strV "b"]] }

/-- Database holding only the source table with the underscore column. -/
def C7db : Database := [("rawU", C7raw)]

/-- The staging table after merging C7raw into a fresh destination: only
one row, because the insert statement drops the underscore column before
taking DISTINCT. -/
def C7stgAfter : Table :=
  { cols := [("_x", "TEXT"), ("y", "TEXT")] ++ metaCols,
    rows := [[Val.null, Val.strV "b", Val.strV "t1", Val.strV "rawU"]] }

/-- The database after the merge of the underscore-column scenario. -/
def C7dbAfter : Database := [("stgU", C7stgAfter), ("rawU", C7raw)]

/-- The statistics of the merge of the underscore-column scenario. -/
def C7stats : MergeStats :=
  { raw_count := 2, stg_before := 0, stg_after := 1, rows_inserted := 1,
    duplicates_removed := 0, already_existed := 1 }

/-- An empty source table whose only column starts with an underscore. -/
def C9raw : Table := { cols := [("_only", "TEXT")], rows := [] }

/-- Database holding only the empty all-underscore source table. -/
def C9db : Database := [("rawV", C9raw)]

/-- A non-empty source table whose only column starts with an underscore. -/
def C10raw : Table := { cols := [("_a", "TEXT")], rows := [[Val.strV "x"]] }

/-- Database holding only the non-empty all-underscore source table. -/
def C10db : Database := [("rawW", C10raw)]

/-- A witness source table for the Schema Mirror claims. -/
def W6raw : Table := { cols := [("id", "INTEGER")], rows := [[Val.intV 7]] }

/-- A witness database without the staging table. -/
def W6db : Database := [("rawT6", W6raw)]

/-- A witness source table for the count identity. -/
def W3raw : Table := { cols := [("id", "INTEGER")], rows := [[Val.intV 1]] }

/-- A witness destination table for the count identity. -/
def W3stg : Table := { cols := [("id", "INTEGER")] ++ metaCols, rows := [] }

/-- A witness database for the count identity. -/
def W3db : Database := [("rawT3", W3raw), ("stgT3", W3stg)]

/-- The destination table after the witness merge. -/
def W3stgAfter : Table :=
  { cols := [("id", "INTEGER")] ++ metaCols,
    rows := [[Val.intV 1, Val.strV "t1", Val.strV "rawT3"]] }

/-- The database after the witness merge. -/
def W3dbAfter : Database := [("stgT3", W3stgAfter), ("rawT3", W3raw)]

/-- The statistics of the witness merge. -/
def W3stats : MergeStats :=
  { raw_count := 1, stg_before := 0, stg_after := 1, rows_inserted := 1,
    duplicates_removed := 0, already_existed := 0 }

/-- The table obtained by erasing every underscore-prefixed column of a
table together with the values stored under those columns. -/
def stripUnderscoreCols (t : Table) : Table :=
  { cols := t.cols.filter (fun c => !(pyStartsWith c.1 "_")),
    rows := t.rows.map (projectRow t.cols) }

/-- A witness source table without underscore columns and with one
duplicated row. -/
def W7raw : Table :=
  { cols := [("id", "INTEGER")], rows := [[Val.intV 1], [Val.intV 1], [Val.intV 2]] }

/-- A witness database for the insert-count theorem. -/
def W7db : Database := [("rawT7", W7raw)]

/-- A witness empty source table with an ordinary column. -/
def W9raw : Table := { cols := [("id", "INTEGER")], rows := [] }

/-- A witness database for the empty-source theorem. -/
def W9db : Database := [("rawT9", W9raw)]

/-- A witness source table with an underscore column and an ordinary one. -/
def W10raw : Table :=
  { cols := [("_x", "TEXT"), ("y", "TEXT")],
    rows := [[Val.strV "a", Val.strV "b"]] }

/-- A witness destination table mirroring the witness source. -/
def W10stg : Table :=
  { cols := [("_x", "TEXT"), ("y", "TEXT")] ++ metaCols, rows := [] }

/-- A witness database for the value-dropping theorem. -/
def W10db : Database := [("rawX", W10raw), ("stgX", W10stg)]

/-- The same witness database with the underscore column of the source
erased. -/
def W10dbS : Database := [("rawX", stripUnderscoreCols W10raw), ("stgX", W10stg)]

/-- C1: the claim says a merge never inserts a row whose non-metadata values
already match a pre-existing destination row. The insert statement of
move_data_deduplicated has no exclusion against the destination, so on C1db
the merge succeeds and inserts a second copy of the business row (1, A)
that the destination already held: after the run the destination projects
to two equal non-metadata rows. This contradicts the claim and the script
docstring, which promises that only records absent from the staging table
are inserted. -/
theorem c1_reinserts_existing_row :
    move_data_deduplicated C1db "rawT" "stgT" "t1" = Except.ok (C1dbAfter, C1stats) ∧
    ((getTable C1dbAfter "stgT").map (fun t => t.rows.map (projectRow t.cols))) =
      some [[Val.intV 1, Val.strV "A"], [Val.intV 1, Val.strV "A"]] := by
  constructor <;> rfl

/-- C2: the claim (with the specification scenario N = 3, D = 1) says the
second merge on an unchanged source reports rows_inserted = 0 and
already_existed = N - D = 2. Running the embedded code twice on the
scenario shows the second merge re-inserts both distinct rows:
rows_inserted = 2 and already_existed = 0, and the destination grows from
2 to 4 rows. This contradicts the claim and the script docstring. -/
theorem c2_second_run_reinserts :
    move_data_deduplicated (create_stg_table C2db "RawAccount" "stgAccount")
        "RawAccount" "stgAccount" "t1" = Except.ok (C2db1, C2stats1) ∧
    move_data_deduplicated C2db1 "RawAccount" "stgAccount" "t2" =
      Except.ok (C2db2, C2stats2) ∧
    C2stats2.rows_inserted = 2 ∧ C2stats2.already_existed = 0 := by
  refine ⟨rfl, rfl, rfl, rfl⟩

/-- C4 counterexample: the claim says any of the eight casings of the raw
prefix is stripped, so rAwAccount would map to stgAccount. The code only
strips the three literal prefixes Raw, raw and RAW, so rAwAccount falls to
the underscore fallback and maps to stg_rAwAccount. -/
theorem c4_counterexample :
    create_stg_table_name "rAwAccount" = "stg_rAwAccount" ∧
    create_stg_table_name "rAwAccount" ≠ "stgAccount" := by
  constructor <;> decide

/-- C4 amended: create_stg_table_name strips exactly the literal prefixes
Raw, raw and RAW (replacing them by stg) and prepends stg_ otherwise; the
three example names of the claim map as stated, while a mixed casing such
as rAwAccount is not stripped. -/
theorem c4_amended :
    create_stg_table_name "RawAccount" = "stgAccount" ∧
    create_stg_table_name "rawCustomers" = "stgCustomers" ∧
    create_stg_table_name "RAW_DATA" = "stg_DATA" ∧
    create_stg_table_name "Orders" = "stg_Orders" ∧
    create_stg_table_name "rAwAccount" = "stg_rAwAccount" := by
  refine ⟨?_, ?_, ?_, ?_, ?_⟩ <;> decide

/-- C5 counterexample: the claim says a destination with extra columns the
source lacks makes the merge fail with a SchemaMismatchError and leaves
the destination row count unchanged. On C5db the insert names only the
source column and the metadata columns, so it succeeds, the extra column
is filled with NULL, and the destination row count changes from 0 to 1.
No SchemaMismatchError exists anywhere in the script. -/
theorem c5_counterexample :
    move_data_deduplicated C5db "rawS" "stgS" "t1" = Except.ok (C5dbAfter, C5stats) ∧
    (getTable C5dbAfter "stgS").map Table.rows =
      some [[Val.intV 1, Val.null, Val.strV "t1", Val.strV "rawS"]] ∧
    C5stats.stg_before = 0 ∧ C5stats.stg_after = 1 := by
  refine ⟨rfl, rfl, rfl, rfl⟩

/-- C7 counterexample: the claim says a merge into an empty destination
inserts exactly N minus D rows, with D the number of exact duplicate rows
over all columns. C7raw has N = 2 rows and D = 0 duplicates, yet only one
row is inserted: the insert statement projects away the underscore column
_x, and the two rows collide on the remaining column. -/
theorem c7_counterexample :
    move_data_deduplicated (create_stg_table C7db "rawU" "stgU") "rawU" "stgU" "t1" =
      Except.ok (C7dbAfter, C7stats) ∧
    count_duplicates_in_raw C7raw = 0 ∧
    C7stats.rows_inserted ≠ (C7raw.rows.length : Int) - count_duplicates_in_raw C7raw := by
  refine ⟨rfl, rfl, by decide⟩

/-- C9 counterexample: the claim says a merge on an empty source always
succeeds with all counts zero. If every source column starts with an
underscore, get_column_names is empty and the generated insert statement
has an empty column list, which is an SQL syntax error: the merge fails
even though the source is empty. -/
theorem c9_counterexample :
    move_data_deduplicated (create_stg_table C9db "rawV" "stgV") "rawV" "stgV" "t1" =
      Except.error "SQL syntax error: empty column list" := by
  rfl

/-- C10 counterexample: the claim says a source with an underscore-prefixed
column has the column values dropped rather than reported as an error. If
the underscore columns are all the columns, nothing remains in the insert
column list and the merge reports an SQL syntax error instead of dropping
the values. -/
theorem c10_counterexample :
    move_data_deduplicated (create_stg_table C10db "rawW" "stgW") "rawW" "stgW" "t1" =
      Except.error "SQL syntax error: empty column list" := by
  rfl

theorem getTable_setTable_self (db : Database) (n : String) (t : Table) :
    getTable (setTable db n t) n = some t := by
  simp [getTable, setTable, List.find?]

theorem getTable_setTable_other (db : Database) (n m : String) (t : Table)
    (h : m ≠ n) : getTable (setTable db n t) m = getTable db m := by
  unfold getTable setTable
  rw [List.find?_cons_of_neg _ (by simp; exact fun e => h e.symm)]
  rw [List.find?_filter]
  have hfun : (fun (a : String × Table) => decide ((!(a.1 == n)) = true ∧ (a.1 == m) = true)) =
      (fun (p : String × Table) => p.1 == m) := by
    funext a
    by_cases ham : a.1 = m
    · simp [ham]
      exact fun e => h e
    · simp [ham]
  rw [hfun]

theorem dedup_map_length_le {α β : Type} [DecidableEq α] [DecidableEq β]
    (f : α → β) (l : List α) : (l.map f).dedup.length ≤ l.dedup.length := by
  have himg : (l.map f).toFinset = l.toFinset.image f := by
    ext b
    simp [List.mem_toFinset]
  rw [← List.card_toFinset, ← List.card_toFinset, himg]
  exact Finset.card_image_le

theorem dedup_length_le {α : Type} [DecidableEq α] (l : List α) :
    l.dedup.length ≤ l.length :=
  (List.dedup_sublist l).length_le

theorem projectRow_nil_right (cols : List (String × String)) :
    projectRow cols [] = [] := by
  cases cols <;> rfl

theorem projectRow_eq_self (cols : List (String × String)) (r : List Val)
    (hlen : r.length = cols.length)
    (hnu : ∀ c ∈ cols, pyStartsWith c.1 "_" = false) :
    projectRow cols r = r := by
  induction cols generalizing r with
  | nil =>
      cases r with
      | nil => rfl
      | cons v vs => simp at hlen
  | cons c cs ih =>
      cases r with
      | nil => simp at hlen
      | cons v vs =>
          have hc := hnu c (by simp)
          simp only [projectRow, hc, Bool.false_eq_true, if_false, List.cons.injEq,
            true_and]
          exact ih vs (by simpa using hlen) (fun c2 h2 => hnu c2 (by simp [h2]))

theorem projectRow_idem (cols : List (String × String)) (r : List Val) :
    projectRow (cols.filter (fun c => !(pyStartsWith c.1 "_"))) (projectRow cols r) =
      projectRow cols r := by
  induction cols generalizing r with
  | nil => rfl
  | cons c cs ih =>
      cases r with
      | nil => rw [projectRow_nil_right, projectRow_nil_right]
      | cons v vs =>
          by_cases hc : pyStartsWith c.1 "_"
          · rw [show projectRow (c :: cs) (v :: vs) = projectRow cs vs from by
              simp [projectRow, hc]]
            rw [show (c :: cs).filter (fun d => !(pyStartsWith d.1 "_")) =
                cs.filter (fun d => !(pyStartsWith d.1 "_")) from by
              simp [List.filter_cons, hc]]
            exact ih vs
          · rw [show projectRow (c :: cs) (v :: vs) = v :: projectRow cs vs from by
              simp [projectRow, hc]]
            rw [show (c :: cs).filter (fun d => !(pyStartsWith d.1 "_")) =
                c :: cs.filter (fun d => !(pyStartsWith d.1 "_")) from by
              simp [List.filter_cons, hc]]
            rw [show projectRow
                  (c :: cs.filter (fun d => !(pyStartsWith d.1 "_")))
                  (v :: projectRow cs vs) =
                v :: projectRow (cs.filter (fun d => !(pyStartsWith d.1 "_")))
                  (projectRow cs vs) from by
              simp [projectRow, hc]]
            rw [ih vs]

theorem create_stg_table_of_present (db : Database) (raw stg : String) (t : Table)
    (h : getTable db stg = some t) : create_stg_table db raw stg = db := by
  simp [create_stg_table, h]

theorem create_stg_table_of_absent (db : Database) (raw stg : String)
    (h : getTable db stg = none) :
    create_stg_table db raw stg =
      setTable db stg
        { cols := ((getTable db raw).map Table.cols).getD [] ++ metaCols,
          rows := [] } := by
  simp [create_stg_table, h]

/-- C6: the Schema Mirror step is idempotent. Running create_stg_table a
second time is the identity, an existing destination table is never
altered (whatever the current source schema is), and when the destination
is absent it is created with the source columns in order followed by the
two metadata columns, and no rows. -/
theorem c6_schema_mirror_idempotent (db : Database) (raw stg : String) :
    create_stg_table (create_stg_table db raw stg) raw stg =
      create_stg_table db raw stg ∧
    (∀ t, getTable db stg = some t → create_stg_table db raw stg = db) ∧
    (∀ rawT, getTable db stg = none → getTable db raw = some rawT →
        getTable (create_stg_table db raw stg) stg =
          some { cols := rawT.cols ++ metaCols, rows := [] }) := by
  refine ⟨?_, ?_, ?_⟩
  · cases h : getTable db stg with
    | some t =>
        rw [create_stg_table_of_present db raw stg t h,
          create_stg_table_of_present db raw stg t h]
    | none =>
        rw [create_stg_table_of_absent db raw stg h]
        exact create_stg_table_of_present _ raw stg _ (getTable_setTable_self _ _ _)
  · intro t h
    exact create_stg_table_of_present db raw stg t h
  · intro rawT h hraw
    rw [create_stg_table_of_absent db raw stg h, hraw]
    exact getTable_setTable_self _ _ _

/-- C6 witness: the Schema Mirror theorem applied at a concrete database,
discharging both hypothesis-guarded conjuncts. -/
theorem c6_schema_mirror_idempotent_witness :
    create_stg_table (create_stg_table W6db "rawT6" "stgT6") "rawT6" "stgT6" =
      create_stg_table W6db "rawT6" "stgT6" ∧
    getTable (create_stg_table W6db "rawT6" "stgT6") "stgT6" =
      some { cols := W6raw.cols ++ metaCols, rows := [] } :=
  ⟨(c6_schema_mirror_idempotent W6db "rawT6" "stgT6").1,
   (c6_schema_mirror_idempotent W6db "rawT6" "stgT6").2.2 W6raw (by rfl) (by rfl)⟩

/-- C3: for every successful merge the returned counts satisfy
raw_count = duplicates_removed + already_existed + rows_inserted. The
flooring in already_existed never truncates, because the number of
inserted rows (the count of distinct projected source rows) is at most
the count of distinct full source rows. -/
theorem c3_count_identity (db : Database) (raw stg now : String)
    (db2 : Database) (s : MergeStats)
    (h : move_data_deduplicated db raw stg now = Except.ok (db2, s)) :
    s.raw_count = s.duplicates_removed + s.already_existed + s.rows_inserted := by
  unfold move_data_deduplicated at h
  cases hraw : getTable db raw with
  | none => rw [hraw] at h; simp at h
  | some rawT =>
    cases hstg : getTable db stg with
    | none => rw [hraw, hstg] at h; cases (getTable db raw) <;> simp at h
    | some stgT =>
      rw [hraw, hstg] at h
      simp only [] at h
      split at h
      · simp at h
      · split at h
        · rw [Except.ok.injEq, Prod.mk.injEq] at h
          obtain ⟨-, hs⟩ := h
          subst hs
          simp only [List.length_append, List.length_map]
          have hle : ((rawT.rows.map (projectRow rawT.cols)).dedup.length : Int) ≤
              (rawT.rows.dedup.length : Int) := by
            exact_mod_cast dedup_map_length_le (projectRow rawT.cols) rawT.rows
          have hle2 : (rawT.rows.dedup.length : Int) ≤ (rawT.rows.length : Int) := by
            exact_mod_cast dedup_length_le rawT.rows
          unfold count_duplicates_in_raw
          rw [max_def]
          split <;> push_cast <;> omega
        · simp at h

/-- C3 witness: the count identity instantiated at a concrete successful
merge. -/
theorem c3_count_identity_witness :
    W3stats.raw_count =
      W3stats.duplicates_removed + W3stats.already_existed + W3stats.rows_inserted :=
  c3_count_identity W3db "rawT3" "stgT3" "t1" W3dbAfter W3stats (by rfl)

/-- C5 amended: with both tables present and a non-empty insert column
list, the merge succeeds exactly when every column the insert statement
names (the non-underscore source columns and the two metadata columns)
exists in the destination; extra destination columns the source lacks do
not make it fail. -/
theorem c5_amended_success_iff (db : Database) (raw stg now : String)
    (rawT stgT : Table)
    (h1 : getTable db raw = some rawT) (h2 : getTable db stg = some stgT)
    (h3 : get_column_names rawT ≠ []) :
    (∃ p, move_data_deduplicated db raw stg now = Except.ok p) ↔
      ∀ n ∈ get_column_names rawT ++ metaColNames, n ∈ stgT.cols.map Prod.fst := by
  unfold move_data_deduplicated
  rw [h1, h2]
  simp only []
  rw [if_neg (by simp [List.isEmpty_iff, h3])]
  by_cases hall : ((get_column_names rawT ++ metaColNames).all
      (fun n => (stgT.cols.map Prod.fst).contains n)) = true
  · rw [if_pos hall]
    simp only [List.all_eq_true] at hall
    constructor
    · intro _ n hn
      have := hall n hn
      simpa [List.contains] using this
    · intro _
      exact ⟨_, rfl⟩
  · rw [if_neg hall]
    constructor
    · rintro ⟨p, hp⟩
      simp at hp
    · intro hmem
      exact absurd (List.all_eq_true.mpr (fun n hn => by
        simpa [List.contains] using hmem n hn)) hall

/-- C7 amended: for a non-empty source table none of whose column names
starts with an underscore (rows well-formed, at least one column), merging
into a freshly created empty destination inserts exactly N minus D rows
and reports duplicates_removed = D, with N the source row count and D the
count of exact duplicate rows. -/
theorem c7_amended_insert_count (db : Database) (raw stg now : String) (rawT : Table)
    (h1 : getTable db raw = some rawT)
    (h2 : getTable db stg = none)
    (h3 : ∀ c ∈ rawT.cols, pyStartsWith c.1 "_" = false)
    (h4 : rawT.cols ≠ [])
    (h5 : ∀ r ∈ rawT.rows, r.length = rawT.cols.length)
    (h6 : rawT.rows ≠ []) :
    ∃ db2 s,
      move_data_deduplicated (create_stg_table db raw stg) raw stg now =
        Except.ok (db2, s) ∧
      s.rows_inserted = (rawT.rows.length : Int) - count_duplicates_in_raw rawT ∧
      s.duplicates_removed = count_duplicates_in_raw rawT := by
  have hne : raw ≠ stg := by
    intro e
    rw [e, h2] at h1
    cases h1
  have hget_raw : getTable (create_stg_table db raw stg) raw = some rawT := by
    rw [create_stg_table_of_absent db raw stg h2,
      getTable_setTable_other _ _ _ _ hne]
    exact h1
  have hget_stg : getTable (create_stg_table db raw stg) stg =
      some { cols := rawT.cols ++ metaCols, rows := [] } := by
    rw [create_stg_table_of_absent db raw stg h2, h1]
    simpa using getTable_setTable_self _ stg _
  have hnames : get_column_names rawT = rawT.cols.map Prod.fst := by
    unfold get_column_names
    rw [List.filter_eq_self.mpr]
    intro a ha
    simp [h3 a ha]
  have hproj : rawT.rows.map (projectRow rawT.cols) = rawT.rows := by
    rw [List.map_congr_left (fun r hr => projectRow_eq_self rawT.cols r (h5 r hr) h3)]
    exact List.map_id rawT.rows
  have hempty : (get_column_names rawT).isEmpty = false := by
    rw [hnames]
    simpa [List.isEmpty_iff] using h4
  have hall : ((get_column_names rawT ++ metaColNames).all
      (fun n => (({ cols := rawT.cols ++ metaCols, rows := [] } : Table).cols.map
        Prod.fst).contains n)) = true := by
    rw [List.all_eq_true]
    intro n hn
    rw [hnames] at hn
    have hmem : n ∈ (rawT.cols ++ metaCols).map Prod.fst := by
      rw [List.map_append]
      exact hn
    simpa [List.contains] using hmem
  have hle2 : rawT.rows.dedup.length ≤ rawT.rows.length := dedup_length_le rawT.rows
  unfold move_data_deduplicated
  rw [hget_raw, hget_stg]
  simp only []
  rw [if_neg (by simp [hempty]), if_pos hall]
  refine ⟨_, _, rfl, ?_, ?_⟩
  · simp only [hproj, List.nil_append, List.length_append, List.length_map,
      List.length_nil]
    unfold count_duplicates_in_raw
    push_cast
    omega
  · rfl

/-- Every name get_column_names returns is the name of a column. -/
theorem mem_cols_of_mem_get_column_names (t : Table) (n : String)
    (hn : n ∈ get_column_names t) : n ∈ t.cols.map Prod.fst := by
  unfold get_column_names at hn
  obtain ⟨c, hc, rfl⟩ := List.mem_map.mp hn
  exact List.mem_map.mpr ⟨c, List.mem_of_mem_filter hc, rfl⟩

/-- C9 amended: for an empty source table having at least one column whose
name does not start with an underscore, the merge after Schema Mirror
succeeds with every reported count equal to zero, and the destination is
created with the source columns plus the metadata columns and no rows. -/
theorem c9_amended_empty_source (db : Database) (raw stg now : String) (rawT : Table)
    (h1 : getTable db raw = some rawT)
    (h2 : rawT.rows = [])
    (h3 : getTable db stg = none)
    (h4 : get_column_names rawT ≠ []) :
    ∃ db2 s,
      move_data_deduplicated (create_stg_table db raw stg) raw stg now =
        Except.ok (db2, s) ∧
      s.raw_count = 0 ∧ s.duplicates_removed = 0 ∧ s.already_existed = 0 ∧
      s.rows_inserted = 0 ∧
      getTable db2 stg = some { cols := rawT.cols ++ metaCols, rows := [] } := by
  have hne : raw ≠ stg := by
    intro e
    rw [e, h3] at h1
    cases h1
  have hget_raw : getTable (create_stg_table db raw stg) raw = some rawT := by
    rw [create_stg_table_of_absent db raw stg h3,
      getTable_setTable_other _ _ _ _ hne]
    exact h1
  have hget_stg : getTable (create_stg_table db raw stg) stg =
      some { cols := rawT.cols ++ metaCols, rows := [] } := by
    rw [create_stg_table_of_absent db raw stg h3, h1]
    simpa using getTable_setTable_self _ stg _
  have hall : ((get_column_names rawT ++ metaColNames).all
      (fun n => (({ cols := rawT.cols ++ metaCols, rows := [] } : Table).cols.map
        Prod.fst).contains n)) = true := by
    rw [List.all_eq_true]
    intro n hn
    have hmem : n ∈ (rawT.cols ++ metaCols).map Prod.fst := by
      rw [List.map_append]
      rcases List.mem_append.mp hn with hn1 | hn2
      · exact List.mem_append.mpr (Or.inl
          (mem_cols_of_mem_get_column_names rawT n hn1))
      · exact List.mem_append.mpr (Or.inr hn2)
    simpa [List.contains] using hmem
  unfold move_data_deduplicated
  rw [hget_raw, hget_stg]
  simp only []
  rw [if_neg (by simp [List.isEmpty_iff, h4]), if_pos hall]
  refine ⟨_, _, rfl, ?_, ?_, ?_, ?_, ?_⟩
  · simp [h2]
  · simp [count_duplicates_in_raw, h2]
  · simp [count_duplicates_in_raw, h2]
  · simp [h2]
  · rw [getTable_setTable_self]
    simp [h2]

/-- The batch loop yields exactly one result per source table, in order,
and every failed result carries its recorded error message. -/
theorem processTables_results (now : String) :
    ∀ (tables : List String) (db : Database),
      ((processTables db now tables).2.map (fun r => r.raw_table) = tables) ∧
      (∀ r ∈ (processTables db now tables).2,
        r.success = false → r.error ≠ none) := by
  intro tables
  induction tables with
  | nil =>
      intro db
      exact ⟨rfl, by intro r hr; cases hr⟩
  | cons t ts ih =>
      intro db
      unfold processTables
      dsimp only
      cases hm : move_data_deduplicated (create_stg_table db t (create_stg_table_name t))
          t (create_stg_table_name t) now with
      | ok p =>
          obtain ⟨db2, stats⟩ := p
          dsimp only
          refine ⟨by simp [(ih db2).1], ?_⟩
          intro r hr hf
          rcases List.mem_cons.mp hr with hr1 | hr2
          · rw [hr1] at hf
            cases hf
          · exact (ih db2).2 r hr2 hf
      | error e =>
          dsimp only
          refine ⟨by simp [(ih _).1], ?_⟩
          intro r hr hf
          rcases List.mem_cons.mp hr with hr1 | hr2
          · rw [hr1]
            simp
          · exact (ih _).2 r hr2 hf

/-- C8: errors are isolated per table. The batch produces one result per
source table in order, so a failing table never aborts the others, each
failed result records its error message, and the aggregate flag is true
exactly when every per-table result succeeded. -/
theorem c8_batch_isolation (db : Database) (now : String) (tables : List String) :
    ((process_raw_to_stg db now tables).2.1.map (fun r => r.raw_table) = tables) ∧
    (∀ r ∈ (process_raw_to_stg db now tables).2.1,
      r.success = false → r.error ≠ none) ∧
    ((process_raw_to_stg db now tables).2.2 = true ↔
      ∀ r ∈ (process_raw_to_stg db now tables).2.1, r.success = true) := by
  refine ⟨(processTables_results now tables db).1,
    (processTables_results now tables db).2, ?_⟩
  unfold process_raw_to_stg
  simp only []
  rw [List.isEmpty_iff, List.filter_eq_nil_iff]
  constructor
  · intro hmem r hr
    have := hmem r hr
    simpa using this
  · intro hmem r hr
    simp [hmem r hr]

/-- C8 witness: the batch theorem instantiated at a concrete database and
table list. -/
theorem c8_batch_isolation_witness :
    ((process_raw_to_stg C2db "t1" ["RawAccount"]).2.1.map (fun r => r.raw_table) =
      ["RawAccount"]) ∧
    (∀ r ∈ (process_raw_to_stg C2db "t1" ["RawAccount"]).2.1,
      r.success = false → r.error ≠ none) ∧
    ((process_raw_to_stg C2db "t1" ["RawAccount"]).2.2 = true ↔
      ∀ r ∈ (process_raw_to_stg C2db "t1" ["RawAccount"]).2.1, r.success = true) :=
  c8_batch_isolation C2db "t1" ["RawAccount"]

/-- C10 amended: the merge silently drops the values of every
underscore-prefixed source column. Whenever the merge succeeds, running it
from a source table with its underscore columns erased produces the same
destination table and the same inserted-row count, so the dropped values
never reach the destination. -/
theorem c10_underscore_values_dropped
    (db dbS : Database) (raw stg now : String) (rawT stgT : Table)
    (h1 : getTable db raw = some rawT) (h2 : getTable db stg = some stgT)
    (h1s : getTable dbS raw = some (stripUnderscoreCols rawT))
    (h2s : getTable dbS stg = some stgT)
    (h3 : get_column_names rawT ≠ [])
    (h4 : ∀ n ∈ get_column_names rawT ++ metaColNames, n ∈ stgT.cols.map Prod.fst) :
    ∃ dbA s dbB s2,
      move_data_deduplicated db raw stg now = Except.ok (dbA, s) ∧
      move_data_deduplicated dbS raw stg now = Except.ok (dbB, s2) ∧
      getTable dbA stg = getTable dbB stg ∧
      s.rows_inserted = s2.rows_inserted := by
  have hnames : get_column_names (stripUnderscoreCols rawT) = get_column_names rawT := by
    unfold get_column_names stripUnderscoreCols
    simp [List.filter_filter]
  have hrows : (stripUnderscoreCols rawT).rows.map
        (projectRow (stripUnderscoreCols rawT).cols) =
      rawT.rows.map (projectRow rawT.cols) := by
    unfold stripUnderscoreCols
    rw [List.map_map]
    exact List.map_congr_left (fun r hr => projectRow_idem rawT.cols r)
  have hempty : (get_column_names rawT).isEmpty = false := by
    simp [List.isEmpty_iff, h3]
  have hallb : ((get_column_names rawT ++ metaColNames).all
      (fun n => (stgT.cols.map Prod.fst).contains n)) = true :=
    List.all_eq_true.mpr (fun n hn => by simpa [List.contains] using h4 n hn)
  unfold move_data_deduplicated
  rw [h1, h2, h1s, h2s]
  simp only []
  rw [hnames, hrows]
  rw [if_neg (by simp [hempty]), if_pos hallb]
  rw [if_neg (by simp [hempty]), if_pos hallb]
  refine ⟨_, _, _, _, rfl, rfl, ?_, ?_⟩
  · rw [getTable_setTable_self, getTable_setTable_self]
  · rfl

/-- C5 amended witness: the success criterion instantiated at the concrete
schema-mismatch database, discharging all hypotheses. -/
theorem c5_amended_success_iff_witness :
    (∃ p, move_data_deduplicated C5db "rawS" "stgS" "t1" = Except.ok p) ↔
      ∀ n ∈ get_column_names C5raw ++ metaColNames, n ∈ C5stg.cols.map Prod.fst :=
  c5_amended_success_iff C5db "rawS" "stgS" "t1" C5raw C5stg (by rfl) (by rfl)
    (by decide)

/-- C7 amended witness: the insert-count theorem applied at a concrete
source with three rows, one of them a duplicate. -/
theorem c7_amended_insert_count_witness :
    ∃ db2 s,
      move_data_deduplicated (create_stg_table W7db "rawT7" "stgT7")
          "rawT7" "stgT7" "t1" = Except.ok (db2, s) ∧
      s.rows_inserted = (W7raw.rows.length : Int) - count_duplicates_in_raw W7raw ∧
      s.duplicates_removed = count_duplicates_in_raw W7raw :=
  c7_amended_insert_count W7db "rawT7" "stgT7" "t1" W7raw (by rfl) (by rfl)
    (by decide) (by decide) (by decide) (by decide)

/-- C9 amended witness: the empty-source theorem applied at a concrete
empty table. -/
theorem c9_amended_empty_source_witness :
    ∃ db2 s,
      move_data_deduplicated (create_stg_table W9db "rawT9" "stgT9")
          "rawT9" "stgT9" "t1" = Except.ok (db2, s) ∧
      s.raw_count = 0 ∧ s.duplicates_removed = 0 ∧ s.already_existed = 0 ∧
      s.rows_inserted = 0 ∧
      getTable db2 "stgT9" = some { cols := W9raw.cols ++ metaCols, rows := [] } :=
  c9_amended_empty_source W9db "rawT9" "stgT9" "t1" W9raw (by rfl) (by rfl)
    (by rfl) (by decide)

/-- C10 amended witness: the value-dropping theorem applied at a concrete
source with an underscore column. -/
theorem c10_underscore_values_dropped_witness :
    ∃ dbA s dbB s2,
      move_data_deduplicated W10db "rawX" "stgX" "t1" = Except.ok (dbA, s) ∧
      move_data_deduplicated W10dbS "rawX" "stgX" "t1" = Except.ok (dbB, s2) ∧
      getTable dbA "stgX" = getTable dbB "stgX" ∧
      s.rows_inserted = s2.rows_inserted :=
  c10_underscore_values_dropped W10db W10dbS "rawX" "stgX" "t1" W10raw W10stg
    (by rfl) (by rfl) (by rfl) (by rfl) (by decide) (by decide)

